import Mathlib

/-!
Shallow embedding of `src/file-permission/file_permission.py` (the chibi
permission gate) and proofs about its decision procedure.

The script has three modes, checked in order:
  1. schema-query mode (`--schema` as first CLI argument): print the SCHEMA
     dict as JSON and return;
  2. pass-through mode (env var CHIBI_HOOK is anything but "pre_file_write",
     including unset): print `{"approved": true}` and return;
  3. confirmation mode: parse a JSON payload from stdin, print a preview of
     the pending file operation to stderr, read one line from /dev/tty and
     approve exactly when the stripped, lowercased response is "y".

Modelling choices:
  * `args` is `sys.argv[1:]` (the arguments after the program name).
  * `os.environ.get("CHIBI_HOOK")` is an `Option String` (`none` = unset).
  * The stdin payload is pre-parsed: `none` models a stream whose contents
    `json.load` cannot parse (the Python raises an uncaught
    `json.JSONDecodeError` there, so the model returns `Except.error`).
    The embedding has two levels: `main` takes payloads restricted to JSON
    objects with the five string-valued fields the script reads via
    `dict.get` (`HookData`; a missing field is `Option.none`, matching
    `dict.get`'s default path) and models stdout and stderr exactly;
    `mainJson` takes an arbitrary parsed `Json` document and additionally
    models the uncaught `AttributeError`/`TypeError` abort paths of
    confirmation mode on non-object or non-string-field payloads (see the
    section comment before `Json`). `mainJson_restricts_to_main` proves the
    two agree on `HookData` payloads.
  * The tty read is `TtyInput`: `unavailable` models `open("/dev/tty")`
    raising `OSError` (caught by the script); `line s` models a successful
    `readline()` returning `s` (the empty string at end-of-input, since
    `readline` returns "" at EOF rather than raising).
  * `stdout` is the list of JSON objects printed to sys.stdout, kept
    structured; `stderr` is the list of texts passed to
    `print(..., file=sys.stderr)`, one entry per print call.
-/

namespace FilePermission

/-- Python `str.isspace` on the ASCII whitespace characters relevant to
`str.strip()` with no argument. -/
def pyIsSpace (c : Char) : Bool :=
  c = ' ' || c = '\t' || c = '\n' || c = '\x0d' || c = '\x0b' || c = '\x0c'

/-- Python `s.strip()`: remove leading and trailing whitespace. -/
def pyStrip (s : String) : String :=
  String.mk (((s.data.dropWhile pyIsSpace).reverse.dropWhile pyIsSpace).reverse)

/-- Python `s.lower()` (ASCII letters), mapped over the character data. -/
def pyLower (s : String) : String :=
  String.mk (s.data.map Char.toLower)

/-- Python `s[:n]` for a nonnegative `n`: the first `n` characters. -/
def pySlice (s : String) (n : Nat) : String :=
  String.mk (s.data.take n)

/-- The fixed `parameters` sub-document of SCHEMA:
`{"type": "object", "properties": {}, "required": []}`. -/
structure ParamSchema where
  type : String
  properties : List (String × String)
  required : List String
deriving DecidableEq, Repr

/-- The shape of the module-level `SCHEMA` dict. -/
structure Schema where
  name : String
  description : String
  parameters : ParamSchema
  hooks : List String
deriving DecidableEq, Repr

/-- The module-level `SCHEMA` constant of the script. -/
def SCHEMA : Schema :=
  { name := "file_permission"
    description := "prompts for permission before file writes"
    parameters := { type := "object", properties := [], required := [] }
    hooks := ["pre_file_write"] }

/-- The JSON object parsed from stdin, restricted to the five string-valued
fields the script reads; `none` models an absent key (so `dict.get` takes
its default). -/
structure HookData where
  tool_name : Option String
  path : Option String
  content : Option String
  find : Option String
  replace : Option String
deriving DecidableEq, Repr

/-- Outcome of the operator-input read on `/dev/tty`. -/
inductive TtyInput where
  /-- `open("/dev/tty")` raises `OSError` (no controlling terminal). -/
  | unavailable : TtyInput
  /-- `readline()` returns `s` (the empty string at end-of-input). -/
  | line (s : String) : TtyInput
deriving DecidableEq, Repr

/-- One JSON object printed to standard output. -/
inductive StdoutObj where
  /-- `json.dumps(SCHEMA)`. -/
  | schema (s : Schema) : StdoutObj
  /-- `json.dumps({"approved": True})` (pass-through mode). -/
  | approvedOnly : StdoutObj
  /-- `json.dumps({"approved": ..., "reason": ...})` (confirmation mode). -/
  | verdict (approved : Bool) (reason : String) : StdoutObj
deriving DecidableEq, Repr

/-- An exception the script does not catch. `jsonDecodeError` comes from
`json.load` on unparseable stdin (line 36); `attributeError` from `.get` on
a parsed non-object (line 37); `typeError` from `len`/slicing/concatenation
on preview fields of unusable types (lines 43, 50-51). -/
inductive PyError where
  | jsonDecodeError : PyError
  | attributeError : PyError
  | typeError : PyError
deriving DecidableEq, Repr

/-- Observable behaviour of one invocation that terminates normally. -/
structure Output where
  stdout : List StdoutObj
  stderr : List String
  readAttempted : Bool
deriving DecidableEq, Repr

/-- The interactive prompt text (printed to stderr with `end=""`). -/
def promptLine : String := "allow this file operation? [y/N]: "

/-- `f"\n[{tool_name}] {path}"`. -/
def headerLine (tool_name path : String) : String :=
  "\n[" ++ tool_name ++ "] " ++ path

/-- `content[:200] + "..." if len(content) > 200 else content`. -/
def writePreview (content : String) : String :=
  if content.length > 200 then pySlice content 200 ++ "..." else content

/-- The two stderr prints of the `write_file` branch. -/
def writePreviewLines (tool_name path content : String) : List String :=
  [headerLine tool_name path, "content preview:\n" ++ writePreview content ++ "\n"]

/-- The three stderr prints of the `patch_file` (default) branch. -/
def patchPreviewLines (tool_name path find replace : String) : List String :=
  [headerLine tool_name path,
   "find: " ++ pySlice find 100,
   "replace: " ++ pySlice replace 100 ++ "\n"]

/-- The `main()` function of `file_permission.py`. -/
def main (args : List String) (hookEnv : Option String)
    (stdin : Option HookData) (tty : TtyInput) : Except PyError Output :=
  if args.head? = some "--schema" then
    .ok { stdout := [.schema SCHEMA], stderr := [], readAttempted := false }
  else if hookEnv ≠ some "pre_file_write" then
    .ok { stdout := [.approvedOnly], stderr := [], readAttempted := false }
  else
    match stdin with
    | none => .error .jsonDecodeError
    | some hookData =>
      let tool_name := hookData.tool_name.getD "unknown"
      let path := hookData.path.getD "unknown"
      let previewLines :=
        if tool_name = "write_file" then
          writePreviewLines tool_name path (hookData.content.getD "")
        else
          patchPreviewLines tool_name path
            (hookData.find.getD "") (hookData.replace.getD "")
      match tty with
      | .unavailable =>
        .ok { stdout := [.verdict false "user denied"],
              stderr := previewLines, readAttempted := false }
      | .line s =>
        let approved := pyLower (pyStrip s) == "y"
        .ok { stdout := [.verdict approved
                (if approved then "user approved" else "user denied")],
              stderr := previewLines ++ [promptLine], readAttempted := true }

/-- The JSON objects written to stdout (none when the invocation aborts). -/
def stdoutOf (e : Except PyError Output) : List StdoutObj :=
  match e with
  | .ok o => o.stdout
  | .error _ => []

/-- The stderr print calls (none captured when the invocation aborts). -/
def stderrOf (e : Except PyError Output) : List String :=
  match e with
  | .ok o => o.stderr
  | .error _ => []

/-- The confirmation verdict printed, when the invocation printed exactly one
confirmation verdict. -/
def verdictOf (e : Except PyError Output) : Option (Bool × String) :=
  match e with
  | .ok o =>
    match o.stdout with
    | [StdoutObj.verdict a r] => some (a, r)
    | _ => none
  | .error _ => none

/-- The `approved` flag of the confirmation verdict, when one was printed. -/
def approvedOf (e : Except PyError Output) : Option Bool :=
  (verdictOf e).map Prod.fst

/-!
Full payload model.  `HookData` only represents JSON objects whose five
fields are strings or absent, which is exact for the preview and verdict
claims but hides the abort paths of confirmation mode on other parsed
payloads: `json.load` can return any JSON document, and then
  * `hook_data.get` (line 37) raises `AttributeError` when the document is
    not an object (e.g. `5`, `null`, `[1]`, `"x"`);
  * in the write branch, `len(content)` (line 43) raises `TypeError` for a
    number, boolean or null content, and when the length exceeds 200 the
    slice-and-concatenate `content[:200] + "..."` raises `TypeError` for an
    array (list + str) or object (unhashable slice);
  * in the patch branch, `find[:100]` / `replace[:100]` (lines 50-51) raise
    `TypeError` unless the value is a string or an array.
`Json` and `mainJson` model these paths.  Since every such exception fires
before the stdout print, `mainJson` records stdout, the read flag, and which
exception aborted; the stderr text of aborted or non-string-field runs would
need Python's `str()` rendering of arbitrary values, which no claim touches,
so the full model omits stderr (the restriction `main` models it exactly,
and `mainJson_restricts_to_main` proves the two models agree on
string-or-absent-field objects).
-/

/-- A parsed JSON document. An `obj` field list is the result of parsing, so
its keys are distinct (Python dicts deduplicate at parse time). -/
inductive Json where
  | null : Json
  | bool (b : Bool) : Json
  | num (n : Int) : Json
  | str (s : String) : Json
  | arr (xs : List Json) : Json
  | obj (kvs : List (String × Json)) : Json

/-- `hook_data.get(key, default)` on a parsed JSON object. -/
def jsonGet (kvs : List (String × Json)) (key : String) (default : Json) : Json :=
  match kvs.lookup key with
  | some v => v
  | none => default

/-- Python `tool_name == "write_file"` for an arbitrary JSON value: equality
with a string literal holds only for the equal string. -/
def isWriteFileTool (j : Json) : Bool :=
  match j with
  | .str s => s == "write_file"
  | _ => false

/-- Abort behaviour of `content[:200] + "..." if len(content) > 200 else
content` (line 43) on an arbitrary JSON value: `len` needs a sized value
(string, array or object), and when the length exceeds 200 the slice plus
string concatenation succeeds only for a string (an array slices but cannot
be concatenated with a string; an object cannot be sliced). -/
def writePreviewCheck (content : Json) : Except PyError Unit :=
  match content with
  | .str _ => .ok ()
  | .arr xs => if xs.length > 200 then .error .typeError else .ok ()
  | .obj kvs => if kvs.length > 200 then .error .typeError else .ok ()
  | _ => .error .typeError

/-- Whether `v[:100]` succeeds (lines 50-51): only strings and arrays can be
sliced. -/
def sliceOk (j : Json) : Bool :=
  match j with
  | .str _ => true
  | .arr _ => true
  | _ => false

/-- Abort behaviour of the preview phase (lines 41-51) on a parsed JSON
object: the write branch checks its content rendering, the patch branch the
two slices (`find` first, matching evaluation order). -/
def previewPhase (kvs : List (String × Json)) : Except PyError Unit :=
  if isWriteFileTool (jsonGet kvs "tool_name" (.str "unknown")) then
    writePreviewCheck (jsonGet kvs "content" (.str ""))
  else
    if sliceOk (jsonGet kvs "find" (.str "")) then
      if sliceOk (jsonGet kvs "replace" (.str "")) then .ok ()
      else .error .typeError
    else .error .typeError

/-- `main()` over arbitrary parsed payloads, projected to the machine-visible
outcome: the JSON objects printed to stdout and whether the tty was read, or
the uncaught exception. Every modelled exception fires before the stdout
print, so an aborting run prints no JSON object. -/
def mainJson (args : List String) (hookEnv : Option String)
    (stdin : Option Json) (tty : TtyInput) :
    Except PyError (List StdoutObj × Bool) :=
  if args.head? = some "--schema" then
    .ok ([.schema SCHEMA], false)
  else if hookEnv ≠ some "pre_file_write" then
    .ok ([.approvedOnly], false)
  else
    match stdin with
    | none => .error .jsonDecodeError
    | some (Json.obj kvs) =>
      match previewPhase kvs with
      | .error e => .error e
      | .ok () =>
        match tty with
        | .unavailable => .ok ([.verdict false "user denied"], false)
        | .line s =>
          let approved := pyLower (pyStrip s) == "y"
          .ok ([.verdict approved
                 (if approved then "user approved" else "user denied")], true)
    | some _ => .error .attributeError

/-- The JSON objects a `mainJson` run wrote to stdout (none when it aborts). -/
def stdoutOfJson (r : Except PyError (List StdoutObj × Bool)) : List StdoutObj :=
  match r with
  | .ok (xs, _) => xs
  | .error _ => []

/-- A parsed payload on which the confirmation preview renders without an
uncaught exception: it must be a JSON object, and the preview fields the
taken branch uses must be of renderable types — for the write branch a
string content, or a sized (array/object) content of at most 200 entries;
for the patch branch sliceable (string or array) find and replace values. -/
def previewSafe (j : Json) : Bool :=
  match j with
  | .obj kvs =>
    if isWriteFileTool (jsonGet kvs "tool_name" (.str "unknown")) then
      match jsonGet kvs "content" (.str "") with
      | .str _ => true
      | .arr xs => decide (xs.length ≤ 200)
      | .obj kvs2 => decide (kvs2.length ≤ 200)
      | _ => false
    else
      sliceOk (jsonGet kvs "find" (.str "")) &&
        sliceOk (jsonGet kvs "replace" (.str ""))
  | _ => false

/-- The field list of a string-or-absent-field payload, in source field
order; an absent field contributes no key. -/
def optField (key : String) (v : Option String) : List (String × Json) :=
  match v with
  | some s => [(key, .str s)]
  | none => []

/-- A `HookData` payload as the JSON object it stands for. -/
def HookData.toJson (hd : HookData) : Json :=
  .obj (optField "tool_name" hd.tool_name ++ optField "path" hd.path ++
        optField "content" hd.content ++ optField "find" hd.find ++
        optField "replace" hd.replace)

/-- The write-branch rendering succeeds exactly on the renderable contents. -/
theorem writePreviewCheck_ok_iff (c : Json) :
    writePreviewCheck c = .ok () ↔
      (match c with
       | .str _ => true
       | .arr xs => decide (xs.length ≤ 200)
       | .obj kvs2 => decide (kvs2.length ≤ 200)
       | _ => false) = true := by
  cases c
  case arr xs =>
    simp only [writePreviewCheck]
    split <;> simp <;> omega
  case obj kvs2 =>
    simp only [writePreviewCheck]
    split <;> simp <;> omega
  all_goals simp [writePreviewCheck]

/-- The preview phase succeeds exactly on preview-safe objects. -/
theorem previewPhase_ok_iff (kvs : List (String × Json)) :
    previewPhase kvs = .ok () ↔ previewSafe (Json.obj kvs) = true := by
  by_cases hw : isWriteFileTool (jsonGet kvs "tool_name" (.str "unknown")) = true
  · simpa [previewPhase, previewSafe, hw] using
      writePreviewCheck_ok_iff (jsonGet kvs "content" (.str ""))
  · cases hf : sliceOk (jsonGet kvs "find" (.str "")) <;>
      cases hr : sliceOk (jsonGet kvs "replace" (.str "")) <;>
      simp [previewPhase, previewSafe, hw, hf, hr]

/-- Every string-or-absent-field payload is preview safe. -/
theorem previewSafe_toJson (hd : HookData) :
    previewSafe hd.toJson = true := by
  obtain ⟨t, p, c, f, r⟩ := hd
  cases t <;> cases p <;> cases c <;> cases f <;> cases r <;>
    simp [previewSafe, HookData.toJson, optField, jsonGet, List.lookup,
          isWriteFileTool, sliceOk]

/-- `main` is the restriction of the full model to string-or-absent-field
object payloads: on those the two embeddings agree on stdout and the read
flag. -/
theorem mainJson_restricts_to_main (args : List String) (hookEnv : Option String)
    (hd : HookData) (tty : TtyInput) :
    mainJson args hookEnv (some hd.toJson) tty =
      (main args hookEnv (some hd) tty).map fun o => (o.stdout, o.readAttempted) := by
  by_cases h1 : args.head? = some "--schema"
  · simp [mainJson, main, h1, Except.map]
  · by_cases h2 : hookEnv = some "pre_file_write"
    · subst h2
      have hpp := (previewPhase_ok_iff _).mpr (previewSafe_toJson hd)
      simp only [List.append_assoc] at hpp
      cases tty <;>
        simp [mainJson, main, HookData.toJson, h1, hpp, Except.map]
    · simp [mainJson, main, h1, h2, Except.map]

/-- Claim C1: in confirmation mode, for every operator response line, the
verdict has `approved = true` exactly when the response, after stripping
whitespace and lowercasing, equals the single character "y"; every other
response (including "yes" and the empty string) yields `approved = false`. -/
theorem c1_confirmation_approval_iff_y (args : List String) (hookData : HookData)
    (resp : String) (h : args.head? ≠ some "--schema") :
    approvedOf (main args (some "pre_file_write") (some hookData) (.line resp)) =
      some (pyLower (pyStrip resp) == "y") := by
  simp [main, approvedOf, verdictOf, h]

/-- Witness for C1 at the response "y". -/
theorem c1_confirmation_approval_iff_y_witness :
    approvedOf (main [] (some "pre_file_write")
      (some ⟨some "write_file", some "/tmp/a.txt", some "hello", none, none⟩)
      (.line "y")) = some true :=
  c1_confirmation_approval_iff_y []
    ⟨some "write_file", some "/tmp/a.txt", some "hello", none, none⟩ "y" (by decide)

/-- Claim C2: in confirmation mode the gate never returns `approved = true`
unless the tty read succeeded and the normalized response equals "y"; an
unavailable input source, and an end-of-input read (empty line), both yield
non-approval. -/
theorem c2_approval_requires_y (args : List String) (hookData : HookData)
    (tty : TtyInput) (h : args.head? ≠ some "--schema") :
    (approvedOf (main args (some "pre_file_write") (some hookData) tty) = some true →
      ∃ s, tty = .line s ∧ pyLower (pyStrip s) = "y") ∧
    approvedOf (main args (some "pre_file_write") (some hookData) .unavailable) =
      some false ∧
    approvedOf (main args (some "pre_file_write") (some hookData) (.line "")) =
      some false := by
  refine ⟨?_, ?_, ?_⟩
  · intro hap
    cases tty with
    | unavailable => simp [main, approvedOf, verdictOf, h] at hap
    | line s =>
      refine ⟨s, rfl, ?_⟩
      simp [main, approvedOf, verdictOf, h] at hap
      exact hap
  · simp [main, approvedOf, verdictOf, h]
  · simp [main, approvedOf, verdictOf, h]
    decide

/-- Witness for C2 at a "y" response. -/
theorem c2_approval_requires_y_witness :
    ∃ s, (TtyInput.line "y") = TtyInput.line s ∧ pyLower (pyStrip s) = "y" :=
  (c2_approval_requires_y [] ⟨none, none, none, none, none⟩ (.line "y")
    (by decide)).1 (by decide)

/-- Claim C4: for every hook name other than "pre_file_write" (including an
unset hook variable), absent the schema flag, the gate outputs exactly
`{"approved": true}`, writes nothing to stderr, and attempts no tty read. -/
theorem c4_passthrough (args : List String) (hookEnv : Option String)
    (stdin : Option HookData) (tty : TtyInput)
    (hargs : args.head? ≠ some "--schema")
    (hhook : hookEnv ≠ some "pre_file_write") :
    main args hookEnv stdin tty =
      .ok { stdout := [.approvedOnly], stderr := [], readAttempted := false } := by
  simp [main, hargs, hhook]

/-- Witness for C4 with an unset hook variable. -/
theorem c4_passthrough_witness :
    main [] none none .unavailable =
      .ok { stdout := [.approvedOnly], stderr := [], readAttempted := false } :=
  c4_passthrough [] none none .unavailable (by decide) (by decide)

/-- Claim C5: when "--schema" is the first command-line argument, the gate
outputs the fixed SCHEMA document and terminates, regardless of the hook
variable, payload or tty state, with no stderr output and no tty read. -/
theorem c5_schema_mode (args : List String) (hookEnv : Option String)
    (stdin : Option HookData) (tty : TtyInput)
    (h : args.head? = some "--schema") :
    main args hookEnv stdin tty =
      .ok { stdout := [.schema SCHEMA], stderr := [], readAttempted := false } := by
  simp [main, h]

/-- Witness for C5 in an otherwise confirmation-triggering state. -/
theorem c5_schema_mode_witness :
    main ["--schema"] (some "pre_file_write")
      (some ⟨some "write_file", some "/a", some "c", none, none⟩) (.line "y") =
      .ok { stdout := [.schema SCHEMA], stderr := [], readAttempted := false } :=
  c5_schema_mode ["--schema"] (some "pre_file_write")
    (some ⟨some "write_file", some "/a", some "c", none, none⟩) (.line "y") rfl

/-- Claim C6: in confirmation mode, end-of-input on the operator read (the
read returns the empty line) yields the verdict `approved = false` with
reason "user denied" — a verdict is printed, so the invocation did not
abort. -/
theorem c6_eof_denies (args : List String) (hookData : HookData)
    (h : args.head? ≠ some "--schema") :
    verdictOf (main args (some "pre_file_write") (some hookData) (.line "")) =
      some (false, "user denied") := by
  simp [main, verdictOf, h]
  decide

/-- Witness for C6 at the example payload of the spec. -/
theorem c6_eof_denies_witness :
    verdictOf (main [] (some "pre_file_write")
      (some ⟨some "write_file", some "/tmp/a.txt", some "hello", none, none⟩)
      (.line "")) = some (false, "user denied") :=
  c6_eof_denies []
    ⟨some "write_file", some "/tmp/a.txt", some "hello", none, none⟩ (by decide)

/-- Counterexample to C3 as stated: in confirmation mode, a stdin payload
that `json.load` cannot parse makes the invocation abort with an uncaught
decode error — no Verdict is produced. -/
theorem c3_counterexample_unparseable_aborts :
    mainJson [] (some "pre_file_write") none (.line "y") =
      .error .jsonDecodeError := rfl

/-- Claim C3 (amended): in confirmation mode, a parsed payload whose preview
renders never aborts the invocation — a structured Verdict is always
produced; every JSON object whose fields are strings or absent is such a
payload, and with all fields missing the preview header defaults tool_name
and path to "unknown". But a payload that cannot be parsed as JSON aborts
with an uncaught decode error, and a parsed payload whose preview cannot
render (a non-object, or a taken-branch preview field of an unusable type)
also aborts with an uncaught error; in those cases no Verdict is produced. -/
theorem c3_parsed_payload_verdicts (args : List String) (j : Json)
    (hd : HookData) (tty : TtyInput) (h : args.head? ≠ some "--schema") :
    (previewSafe j = true → ∃ b r rd,
      mainJson args (some "pre_file_write") (some j) tty =
        .ok ([.verdict b r], rd)) ∧
    previewSafe hd.toJson = true ∧
    (stderrOf (main args (some "pre_file_write")
        (some ⟨none, none, none, none, none⟩) tty)).head? =
      some (headerLine "unknown" "unknown") ∧
    (previewSafe j = false → ∃ e,
      mainJson args (some "pre_file_write") (some j) tty = .error e) := by
  refine ⟨?_, previewSafe_toJson hd, ?_, ?_⟩
  · intro hsafe
    cases j with
    | obj kvs =>
      have hok : previewPhase kvs = .ok () := (previewPhase_ok_iff kvs).mpr hsafe
      cases tty with
      | unavailable =>
        exact ⟨false, "user denied", false, by simp [mainJson, h, hok]⟩
      | line s =>
        exact ⟨pyLower (pyStrip s) == "y",
          if pyLower (pyStrip s) == "y" then "user approved" else "user denied",
          true, by simp [mainJson, h, hok]⟩
    | null => simp [previewSafe] at hsafe
    | bool b => simp [previewSafe] at hsafe
    | num n => simp [previewSafe] at hsafe
    | str s => simp [previewSafe] at hsafe
    | arr xs => simp [previewSafe] at hsafe
  · cases tty <;> simp [main, stderrOf, patchPreviewLines, h]
  · intro hbad
    cases j with
    | obj kvs =>
      cases hpp : previewPhase kvs with
      | error e => exact ⟨e, by simp [mainJson, h, hpp]⟩
      | ok u =>
        cases u
        exact absurd ((previewPhase_ok_iff kvs).mp hpp) (by simp [hbad])
    | null => exact ⟨.attributeError, by simp [mainJson, h]⟩
    | bool b => exact ⟨.attributeError, by simp [mainJson, h]⟩
    | num n => exact ⟨.attributeError, by simp [mainJson, h]⟩
    | str s => exact ⟨.attributeError, by simp [mainJson, h]⟩
    | arr xs => exact ⟨.attributeError, by simp [mainJson, h]⟩

/-- Witness for C3 (amended): the parsed non-object payload `5` aborts
confirmation mode with an uncaught error. -/
theorem c3_parsed_payload_verdicts_witness :
    ∃ e, mainJson [] (some "pre_file_write") (some (Json.num 5)) .unavailable =
      .error e :=
  (c3_parsed_payload_verdicts [] (Json.num 5) ⟨none, none, none, none, none⟩
    .unavailable (by decide)).2.2.2 rfl

/-- Counterexample to C7 as stated: an invocation in confirmation mode with
an unparseable payload writes zero JSON objects to stdout (it aborts), not
exactly one. -/
theorem c7_counterexample_zero_stdout :
    stdoutOfJson (mainJson [] (some "pre_file_write") none .unavailable) = [] ∧
    mainJson [] (some "pre_file_write") none .unavailable =
      .error .jsonDecodeError :=
  ⟨rfl, rfl⟩

/-- Claim C7 (amended): every invocation that terminates normally writes
exactly one JSON object to stdout (preview and prompt text exist only on the
stderr channel of the model); an invocation aborts — writing zero JSON
objects — exactly when it is in confirmation mode and its payload is
unparseable, or parses to something whose preview cannot render (a
non-object, or a taken-branch preview field of an unusable type). -/
theorem c7_exactly_one_stdout_object (args : List String)
    (hookEnv : Option String) (stdin : Option Json) (tty : TtyInput) :
    (∀ outs rd, mainJson args hookEnv stdin tty = .ok (outs, rd) →
      outs.length = 1) ∧
    (∀ e, mainJson args hookEnv stdin tty = .error e →
      args.head? ≠ some "--schema" ∧ hookEnv = some "pre_file_write" ∧
        (stdin = none ∨ ∃ j, stdin = some j ∧ previewSafe j = false)) ∧
    (args.head? ≠ some "--schema" → hookEnv = some "pre_file_write" →
      ∀ j, stdin = some j → previewSafe j = false →
        ∃ e, mainJson args hookEnv stdin tty = .error e) := by
  refine ⟨?_, ?_, ?_⟩
  · intro outs rd hout
    by_cases h1 : args.head? = some "--schema"
    · simp [mainJson, h1] at hout
      obtain ⟨rfl, rfl⟩ := hout
      rfl
    · by_cases h2 : hookEnv = some "pre_file_write"
      · subst h2
        cases stdin with
        | none => simp [mainJson, h1] at hout
        | some j =>
          cases j with
          | obj kvs =>
            cases hpp : previewPhase kvs with
            | error e => simp [mainJson, h1, hpp] at hout
            | ok u =>
              cases u
              cases tty with
              | unavailable =>
                simp [mainJson, h1, hpp] at hout
                obtain ⟨rfl, rfl⟩ := hout
                rfl
              | line s =>
                simp [mainJson, h1, hpp] at hout
                obtain ⟨rfl, rfl⟩ := hout
                rfl
          | null => simp [mainJson, h1] at hout
          | bool b => simp [mainJson, h1] at hout
          | num n => simp [mainJson, h1] at hout
          | str s => simp [mainJson, h1] at hout
          | arr xs => simp [mainJson, h1] at hout
      · simp [mainJson, h1, h2] at hout
        obtain ⟨rfl, rfl⟩ := hout
        rfl
  · intro e he
    by_cases h1 : args.head? = some "--schema"
    · simp [mainJson, h1] at he
    · by_cases h2 : hookEnv = some "pre_file_write"
      · subst h2
        refine ⟨h1, rfl, ?_⟩
        cases stdin with
        | none => exact Or.inl rfl
        | some j =>
          refine Or.inr ⟨j, rfl, ?_⟩
          cases hb : previewSafe j with
          | false => rfl
          | true =>
            exfalso
            cases j with
            | obj kvs =>
              have hok : previewPhase kvs = .ok () :=
                (previewPhase_ok_iff kvs).mpr hb
              cases tty <;> simp [mainJson, h1, hok] at he
            | null => simp [previewSafe] at hb
            | bool b => simp [previewSafe] at hb
            | num n => simp [previewSafe] at hb
            | str s => simp [previewSafe] at hb
            | arr xs => simp [previewSafe] at hb
      · simp [mainJson, h1, h2] at he
  · intro h1 h2 j hj hbad
    subst h2
    subst hj
    cases j with
    | obj kvs =>
      cases hpp : previewPhase kvs with
      | error e => exact ⟨e, by simp [mainJson, h1, hpp]⟩
      | ok u =>
        cases u
        exact absurd ((previewPhase_ok_iff kvs).mp hpp) (by simp [hbad])
    | null => exact ⟨.attributeError, by simp [mainJson, h1]⟩
    | bool b => exact ⟨.attributeError, by simp [mainJson, h1]⟩
    | num n => exact ⟨.attributeError, by simp [mainJson, h1]⟩
    | str s => exact ⟨.attributeError, by simp [mainJson, h1]⟩
    | arr xs => exact ⟨.attributeError, by simp [mainJson, h1]⟩

/-- Witness for C7 (amended) at a pass-through invocation. -/
theorem c7_exactly_one_stdout_object_witness :
    ([StdoutObj.approvedOnly] : List StdoutObj).length = 1 :=
  (c7_exactly_one_stdout_object [] none none .unavailable).1
    [StdoutObj.approvedOnly] false rfl

/-- Claim C8: in the write_file preview, a content string of length greater
than 200 is shown as its first 200 characters followed by "...", and a
content string of length at most 200 is shown unmodified; the preview line
printed to stderr is exactly this rendering. -/
theorem c8_write_preview_truncation (path content resp : String) :
    stderrOf (main [] (some "pre_file_write")
        (some ⟨some "write_file", some path, some content, none, none⟩)
        (.line resp)) =
      [headerLine "write_file" path,
       "content preview:\n" ++ writePreview content ++ "\n", promptLine] ∧
    (200 < content.length → writePreview content = pySlice content 200 ++ "...") ∧
    (content.length ≤ 200 → writePreview content = content) := by
  refine ⟨?_, ?_, ?_⟩
  · simp [main, stderrOf, writePreviewLines]
  · intro hlen
    simp [writePreview, hlen]
  · intro hlen
    simp [writePreview, Nat.not_lt.mpr hlen]

/-- Witness for C8 at a 201-character content string. -/
theorem c8_write_preview_truncation_witness :
    writePreview (String.mk (List.replicate 201 'a')) =
      pySlice (String.mk (List.replicate 201 'a')) 200 ++ "..." :=
  (c8_write_preview_truncation "/a" (String.mk (List.replicate 201 'a'))
    "y").2.1 (by rw [String.length_mk, List.length_replicate]; omega)

/-- Claim C9: for every non-"write_file" operation kind the patch preview is
taken, and the find-text and replace-text are each independently truncated
to their first 100 characters (a prefix, of length `min length 100`), with
no ellipsis marker appended: the stderr lines are exactly "find: " and
"replace: " followed by those prefixes. -/
theorem c9_patch_preview_truncation (tn path find replace resp : String)
    (h : tn ≠ "write_file") :
    stderrOf (main [] (some "pre_file_write")
        (some ⟨some tn, some path, none, some find, some replace⟩)
        (.line resp)) =
      [headerLine tn path,
       "find: " ++ pySlice find 100,
       "replace: " ++ pySlice replace 100 ++ "\n", promptLine] ∧
    (pySlice find 100).length = min find.length 100 ∧
    (∃ t, find.data = (pySlice find 100).data ++ t) ∧
    (pySlice replace 100).length = min replace.length 100 ∧
    (∃ t, replace.data = (pySlice replace 100).data ++ t) := by
  refine ⟨?_, ?_, ⟨find.data.drop 100, ?_⟩, ?_, ⟨replace.data.drop 100, ?_⟩⟩
  · simp [main, stderrOf, patchPreviewLines, h]
  · simp [pySlice, String.length_mk, List.length_take, Nat.min_comm]
  · simp [pySlice]
  · simp [pySlice, String.length_mk, List.length_take, Nat.min_comm]
  · simp [pySlice]

/-- Witness for C9 at a patch_file payload with a 150-character find. -/
theorem c9_patch_preview_truncation_witness :
    stderrOf (main [] (some "pre_file_write")
        (some ⟨some "patch_file", some "/a", none,
          some (String.mk (List.replicate 150 'f')), some "r"⟩)
        (.line "n")) =
      [headerLine "patch_file" "/a",
       "find: " ++ pySlice (String.mk (List.replicate 150 'f')) 100,
       "replace: " ++ pySlice "r" 100 ++ "\n", promptLine] :=
  (c9_patch_preview_truncation "patch_file" "/a"
    (String.mk (List.replicate 150 'f')) "r" "n" (by decide)).1

/-- Claim C10: in confirmation mode with a well-formed payload, the printed
verdict depends only on the operator response: two runs with the same tty
outcome but different payload fields produce the same verdict. -/
theorem c10_verdict_payload_independence (args : List String)
    (d1 d2 : HookData) (tty : TtyInput) (h : args.head? ≠ some "--schema") :
    verdictOf (main args (some "pre_file_write") (some d1) tty) =
      verdictOf (main args (some "pre_file_write") (some d2) tty) := by
  cases tty <;> simp [main, verdictOf, h]

/-- Witness for C10 at two payloads differing in every field. -/
theorem c10_verdict_payload_independence_witness :
    verdictOf (main [] (some "pre_file_write")
      (some ⟨some "write_file", some "/a", some "x", none, none⟩) (.line "y")) =
    verdictOf (main [] (some "pre_file_write")
      (some ⟨some "patch_file", some "/b", none, some "f", some "r"⟩)
      (.line "y")) :=
  c10_verdict_payload_independence []
    ⟨some "write_file", some "/a", some "x", none, none⟩
    ⟨some "patch_file", some "/b", none, some "f", some "r"⟩
    (.line "y") (by decide)

end FilePermission
